import Mathlib

/-!
Verification of the India 2025 tax-analysis scripts (`src/tax.py`,
`src/tax2.py`, `src/tax3.py`).  The numeric code is embedded over `ℚ`,
reading the real arithmetic of Python as exact rational arithmetic; rates
such as `0.05` become `5/100`.  The local `taxable = ...` assignment of each
Python function followed by an `if`/`elif` chain is embedded as a helper
function on the taxable amount applied to the deduction step.
-/

namespace TaxIndia

/-- The `if`/`elif` chain of `old_tax` (`src/tax.py` lines 19–26), as a
function of the already-computed `taxable` amount. -/
def oldSlabChain (taxable : ℚ) : ℚ :=
  if taxable ≤ 250000 then 0
  else if taxable ≤ 500000 then (taxable - 250000) * (5/100)
  else if taxable ≤ 1000000 then 250000 * (5/100) + (taxable - 500000) * (20/100)
  else 250000 * (5/100) + 500000 * (20/100) + (taxable - 1000000) * (30/100)

/-- Function `old_tax` from `src/tax.py` (lines 8–27).  Standard deduction ₹50,000
clamped at zero, then the 0%/5%/20%/30% chain. -/
def old_tax (income : ℚ) : ℚ :=
  oldSlabChain (max (income - 50000) 0)

/-- The inner `if`/`elif` chain of `new_tax` (`src/tax.py` lines 51–65),
reached only when the rebate test fails; its first three branches are dead
there and are kept as written. -/
def newSlabChain (taxable : ℚ) : ℚ :=
  if taxable ≤ 400000 then 0
  else if taxable ≤ 800000 then (taxable - 400000) * (5/100)
  else if taxable ≤ 1200000 then 400000 * (5/100) + (taxable - 800000) * (10/100)
  else if taxable ≤ 1600000 then
    400000 * (5/100) + 400000 * (10/100) + (taxable - 1200000) * (15/100)
  else if taxable ≤ 2000000 then
    400000 * (5/100) + 400000 * (10/100) + 400000 * (15/100)
      + (taxable - 1600000) * (20/100)
  else if taxable ≤ 2400000 then
    400000 * (5/100) + 400000 * (10/100) + 400000 * (15/100)
      + 400000 * (20/100) + (taxable - 2000000) * (25/100)
  else
    400000 * (5/100) + 400000 * (10/100) + 400000 * (15/100)
      + 400000 * (20/100) + 400000 * (25/100) + (taxable - 2400000) * (30/100)

/-- Function `new_tax` from `src/tax.py` (lines 29–67).  Standard deduction ₹75,000
applied WITHOUT a max-clamp, rebate making tax zero for taxable ≤ ₹12,00,000,
then the seven-slab 2025 chain. -/
def new_tax (income : ℚ) : ℚ :=
  if income - 75000 ≤ 1200000 then 0 else newSlabChain (income - 75000)

/-- One bracket of a regime slab table: lower bound, optional upper bound
(`none` = unbounded last slab) and marginal rate. -/
structure Slab where
  lo : ℚ
  hi : Option ℚ
  rate : ℚ
deriving DecidableEq

/-- A regime as data (spec §3): standard deduction, optional rebate
threshold, ordered slab table. -/
structure RegimeConfig where
  standard_deduction : ℚ
  rebate_threshold : Option ℚ
  slabs : List Slab

/-- The old-regime table encoded in the branch constants of `old_tax`. -/
def oldRegime : RegimeConfig :=
  { standard_deduction := 50000
    rebate_threshold := none
    slabs :=
      [ ⟨0, some 250000, 0⟩
      , ⟨250000, some 500000, 5/100⟩
      , ⟨500000, some 1000000, 20/100⟩
      , ⟨1000000, none, 30/100⟩ ] }

/-- The new-regime table encoded in the branch constants of `new_tax`. -/
def newRegime : RegimeConfig :=
  { standard_deduction := 75000
    rebate_threshold := some 1200000
    slabs :=
      [ ⟨0, some 400000, 0⟩
      , ⟨400000, some 800000, 5/100⟩
      , ⟨800000, some 1200000, 10/100⟩
      , ⟨1200000, some 1600000, 15/100⟩
      , ⟨1600000, some 2000000, 20/100⟩
      , ⟨2000000, some 2400000, 25/100⟩
      , ⟨2400000, none, 30/100⟩ ] }

/-- The part of `taxable` falling inside one slab, at the marginal rate of
that slab: `rate * (min taxable hi - min taxable lo)`, with an unbounded slab
taking `min taxable ∞ = taxable` (spec §4.1 step 3). -/
def slabPortion (taxable : ℚ) (s : Slab) : ℚ :=
  s.rate * ((match s.hi with
             | some u => min taxable u
             | none => taxable) - min taxable s.lo)

/-- Modelled from the spec (§4.1): the reference slab-walk algorithm —
clamped deduction, rebate short-circuit, then the sum of per-slab marginal
portions.  `compute_tax` of the spec. -/
def compute_tax (gross_income : ℚ) (regime : RegimeConfig) : ℚ :=
  let taxable := max (gross_income - regime.standard_deduction) 0
  match regime.rebate_threshold with
  | some t =>
      if taxable ≤ t then 0
      else (regime.slabs.map (slabPortion taxable)).sum
  | none => (regime.slabs.map (slabPortion taxable)).sum

/-- The `if`/`elif` chain of `old_tax` in `src/tax2.py` (lines 19–26),
textually identical to the one in `src/tax.py`. -/
def oldSlabChain2 (taxable : ℚ) : ℚ :=
  if taxable ≤ 250000 then 0
  else if taxable ≤ 500000 then (taxable - 250000) * (5/100)
  else if taxable ≤ 1000000 then 250000 * (5/100) + (taxable - 500000) * (20/100)
  else 250000 * (5/100) + 500000 * (20/100) + (taxable - 1000000) * (30/100)

/-- Function `old_tax` from `src/tax2.py` (lines 8–27). -/
def old_tax2 (income : ℚ) : ℚ :=
  oldSlabChain2 (max (income - 50000) 0)

/-- The inner `if`/`elif` chain of `new_tax` in `src/tax2.py` (lines 49–63).
Its 20% branch is written `(taxable - 1200000 - 400000) * 0.20` instead of
`(taxable - 1600000) * 0.20`. -/
def newSlabChain2 (taxable : ℚ) : ℚ :=
  if taxable ≤ 400000 then 0
  else if taxable ≤ 800000 then (taxable - 400000) * (5/100)
  else if taxable ≤ 1200000 then 400000 * (5/100) + (taxable - 800000) * (10/100)
  else if taxable ≤ 1600000 then
    400000 * (5/100) + 400000 * (10/100) + (taxable - 1200000) * (15/100)
  else if taxable ≤ 2000000 then
    400000 * (5/100) + 400000 * (10/100) + 400000 * (15/100)
      + (taxable - 1200000 - 400000) * (20/100)
  else if taxable ≤ 2400000 then
    400000 * (5/100) + 400000 * (10/100) + 400000 * (15/100)
      + 400000 * (20/100) + (taxable - 2000000) * (25/100)
  else
    400000 * (5/100) + 400000 * (10/100) + 400000 * (15/100)
      + 400000 * (20/100) + 400000 * (25/100) + (taxable - 2400000) * (30/100)

/-- Function `new_tax` from `src/tax2.py` (lines 29–65). -/
def new_tax2 (income : ℚ) : ℚ :=
  if income - 75000 ≤ 1200000 then 0 else newSlabChain2 (income - 75000)

/-- The `if`/`elif` chain of `old_tax` in `src/tax3.py` (lines 19–26),
textually identical to the one in `src/tax.py`. -/
def oldSlabChain3 (taxable : ℚ) : ℚ :=
  if taxable ≤ 250000 then 0
  else if taxable ≤ 500000 then (taxable - 250000) * (5/100)
  else if taxable ≤ 1000000 then 250000 * (5/100) + (taxable - 500000) * (20/100)
  else 250000 * (5/100) + 500000 * (20/100) + (taxable - 1000000) * (30/100)

/-- Function `old_tax` from `src/tax3.py` (lines 7–27). -/
def old_tax3 (income : ℚ) : ℚ :=
  oldSlabChain3 (max (income - 50000) 0)

/-- The inner `if`/`elif` chain of `new_tax` in `src/tax3.py` (lines 52–65),
textually identical to the one in `src/tax.py`. -/
def newSlabChain3 (taxable : ℚ) : ℚ :=
  if taxable ≤ 400000 then 0
  else if taxable ≤ 800000 then (taxable - 400000) * (5/100)
  else if taxable ≤ 1200000 then 400000 * (5/100) + (taxable - 800000) * (10/100)
  else if taxable ≤ 1600000 then
    400000 * (5/100) + 400000 * (10/100) + (taxable - 1200000) * (15/100)
  else if taxable ≤ 2000000 then
    400000 * (5/100) + 400000 * (10/100) + 400000 * (15/100)
      + (taxable - 1600000) * (20/100)
  else if taxable ≤ 2400000 then
    400000 * (5/100) + 400000 * (10/100) + 400000 * (15/100)
      + 400000 * (20/100) + (taxable - 2000000) * (25/100)
  else
    400000 * (5/100) + 400000 * (10/100) + 400000 * (15/100)
      + 400000 * (20/100) + 400000 * (25/100) + (taxable - 2400000) * (30/100)

/-- Function `new_tax` from `src/tax3.py` (lines 29–67). -/
def new_tax3 (income : ℚ) : ℚ :=
  if income - 75000 ≤ 1200000 then 0 else newSlabChain3 (income - 75000)

/-- A population slice (spec §3): fraction of total taxpayers and one
representative income.  The label plays no computational role and is
omitted. -/
structure TaxpayerSegment where
  population_fraction : ℚ
  rep_income : ℚ
deriving DecidableEq

/-- Per-segment saving, `src/tax3.py` line 108:
`saving = old_tax(rep_income) - new_tax(rep_income)`. -/
def segment_saving (s : TaxpayerSegment) : ℚ :=
  old_tax3 s.rep_income - new_tax3 s.rep_income

/-- Per-segment taxpayer count, `src/tax3.py` line 109:
`count = total_taxpayers_AY2425 * percent`. -/
def segment_count (total_population : ℚ) (s : TaxpayerSegment) : ℚ :=
  total_population * s.population_fraction

/-- The `aggregate_savings_slab` list built by the loop in `src/tax3.py`
lines 104–113: one `saving * count` entry per segment, in segment order. -/
def aggregate_savings_slab (total_population : ℚ) (segs : List TaxpayerSegment) : List ℚ :=
  segs.map (fun s => segment_saving s * segment_count total_population s)

/-- Total nominal saving, `src/tax3.py` line 116:
`sum(aggregate_savings_slab)`. -/
def total_aggregate_savings (total_population : ℚ) (segs : List TaxpayerSegment) : ℚ :=
  (aggregate_savings_slab total_population segs).sum

/-- Average saving per taxpayer, `src/tax3.py` line 117:
`total_aggregate_savings_AY2425 / total_taxpayers_AY2425`. -/
def avg_saving (total_population : ℚ) (segs : List TaxpayerSegment) : ℚ :=
  total_aggregate_savings total_population segs / total_population

/-- The AY 2024-25 segment table of `src/tax3.py` lines 85–92 (fractions and
representative incomes; labels omitted). -/
def taxpayer_distribution : List TaxpayerSegment :=
  [ ⟨50/100, 200000⟩
  , ⟨30/100, 500000⟩
  , ⟨10/100, 850000⟩
  , ⟨5/100, 1100000⟩
  , ⟨3/100, 1350000⟩
  , ⟨2/100, 2500000⟩ ]

/-- Taxpayer count for AY 2024-25, `src/tax3.py` lines 76–81 and 94. -/
def total_taxpayers_AY2425 : ℚ := 72800000

/-- Concrete nominal total for AY 2024-25, `src/tax3.py` line 116. -/
def total_aggregate_savings_AY2425 : ℚ :=
  total_aggregate_savings total_taxpayers_AY2425 taxpayer_distribution

/-- The overall inflation rate 5.22%, `src/tax3.py` line 73. -/
def inflation_rate : ℚ := 522/10000

/-- The inflation adjustment of spec §4.2, instantiated by `src/tax3.py`
lines 120 and 135: `real = nominal / (1 + inflation_rate)`. -/
def real_savings (nominal rate : ℚ) : ℚ :=
  nominal / (1 + rate)

/-- Concrete real total for AY 2024-25, `src/tax3.py` line 120:
`total_aggregate_savings_AY2425 / (1 + inflation_rate)`. -/
def real_total_savings_AY2425 : ℚ :=
  total_aggregate_savings_AY2425 / (1 + inflation_rate)

/-- The value-addition multiplier 0.50, `src/tax3.py` line 143. -/
def value_addition_multiplier : ℚ := 50/100

/-- Baseline GDP ₹296.58 lakh crore = 296.58e12 rupees, `src/tax3.py`
line 148. -/
def current_gdp : ℚ := 29658 * 10^10

/-- The GDP projection of `src/tax3.py` lines 144 and 149, as a function of
its three inputs: `increase = real_saving * multiplier` and
`increase_pct = increase / baseline_gdp * 100`. -/
def project (real_saving multiplier baseline_gdp : ℚ) : ℚ × ℚ :=
  (real_saving * multiplier, real_saving * multiplier / baseline_gdp * 100)

/-- Concrete nominal GDP increase, `src/tax3.py` line 144. -/
def gdp_increase_nominal : ℚ :=
  real_total_savings_AY2425 * value_addition_multiplier

/-- Concrete GDP increase percentage, `src/tax3.py` line 149. -/
def gdp_increase_percentage : ℚ :=
  gdp_increase_nominal / current_gdp * 100

/-- Per-person savings of `src/tax.py` line 97: `old_taxes - new_taxes`
elementwise over the income sample. -/
def tax_savings (incomes : List ℚ) : List ℚ :=
  incomes.map (fun i => old_tax i - new_tax i)

/-- Sample average saving, `src/tax.py` line 100: `np.mean(tax_savings)`,
i.e. sum divided by length (the rational embedding of the mean; on an empty
sample the numpy mean is the 0/0 indeterminate, NaN). -/
def avg_saving_sample (incomes : List ℚ) : ℚ :=
  (tax_savings incomes).sum / (tax_savings incomes).length

/-- Checks that a slab table is ordered and contiguous — the upper bound of
each bounded slab is the lower bound of the next slab — and that exactly the
last slab is unbounded (the Slab invariant of spec §3). -/
def slabsChainOk : List Slab → Bool
  | [] => false
  | [s] => s.hi = none
  | s :: t :: rest =>
      (match s.hi with
       | some u => decide (t.lo = u)
       | none => false) && slabsChainOk (t :: rest)

/-- Checks that marginal rates are non-decreasing along a slab table
(the monotonic progressivity requirement of spec §3). -/
def ratesNonDecreasing : List Slab → Bool
  | [] => true
  | [_] => true
  | s :: t :: rest => decide (s.rate ≤ t.rate) && ratesNonDecreasing (t :: rest)

end TaxIndia

namespace TaxIndia

lemma old_tax_eq_compute (income : ℚ) : old_tax income = compute_tax income oldRegime := by
  simp only [old_tax, oldSlabChain, compute_tax, oldRegime, slabPortion, List.map_cons,
    List.map_nil, List.sum_cons, List.sum_nil]
  set t := max (income - 50000) 0 with ht
  have h0 : 0 ≤ t := le_max_right _ _
  have hm0 : min t 0 = 0 := min_eq_right h0
  rcases le_or_lt t 250000 with h1 | h1
  · rw [if_pos h1, hm0, min_eq_left h1, min_eq_left (h1.trans (by norm_num)),
      min_eq_left (h1.trans (by norm_num))]
    ring
  · rw [if_neg (not_le.mpr h1), min_eq_right h1.le, hm0]
    rcases le_or_lt t 500000 with h2 | h2
    · rw [if_pos h2, min_eq_left h2, min_eq_left (h2.trans (by norm_num))]
      ring
    · rw [if_neg (not_le.mpr h2), min_eq_right h2.le]
      rcases le_or_lt t 1000000 with h3 | h3
      · rw [if_pos h3, min_eq_left h3]
        ring
      · rw [if_neg (not_le.mpr h3), min_eq_right h3.le]
        ring

lemma new_tax_eq_compute (income : ℚ) : new_tax income = compute_tax income newRegime := by
  simp only [new_tax, newSlabChain, compute_tax, newRegime, slabPortion, List.map_cons,
    List.map_nil, List.sum_cons, List.sum_nil]
  set u := income - 75000 with hu
  rcases le_or_lt u 1200000 with h1 | h1
  · rw [if_pos h1, if_pos (max_le h1 (by norm_num))]
  · have ht : max u 0 = u := max_eq_left (by linarith)
    rw [if_neg (not_le.mpr h1), ht, if_neg (not_le.mpr h1),
      if_neg (by push_neg; linarith : ¬ u ≤ 400000),
      if_neg (by push_neg; linarith : ¬ u ≤ 800000),
      if_neg (not_le.mpr h1),
      min_eq_right (by linarith : (0:ℚ) ≤ u),
      min_eq_right (by linarith : (400000:ℚ) ≤ u),
      min_eq_right (by linarith : (800000:ℚ) ≤ u),
      min_eq_right h1.le]
    rcases le_or_lt u 1600000 with h2 | h2
    · rw [if_pos h2, min_eq_left h2, min_eq_left (h2.trans (by norm_num)),
        min_eq_left (h2.trans (by norm_num))]
      ring
    · rw [if_neg (not_le.mpr h2), min_eq_right h2.le]
      rcases le_or_lt u 2000000 with h3 | h3
      · rw [if_pos h3, min_eq_left h3, min_eq_left (h3.trans (by norm_num))]
        ring
      · rw [if_neg (not_le.mpr h3), min_eq_right h3.le]
        rcases le_or_lt u 2400000 with h4 | h4
        · rw [if_pos h4, min_eq_left h4]
          ring
        · rw [if_neg (not_le.mpr h4), min_eq_right h4.le]
          ring

lemma oldSlabChain_mono {t1 t2 : ℚ} (h : t1 ≤ t2) :
    oldSlabChain t1 ≤ oldSlabChain t2 := by
  unfold oldSlabChain
  split_ifs <;> linarith

lemma old_tax_mono {i1 i2 : ℚ} (h : i1 ≤ i2) : old_tax i1 ≤ old_tax i2 :=
  oldSlabChain_mono (max_le_max (by linarith) le_rfl)

set_option maxHeartbeats 1600000 in
lemma newSlabChain_mono {t1 t2 : ℚ} (h : t1 ≤ t2) :
    newSlabChain t1 ≤ newSlabChain t2 := by
  unfold newSlabChain
  split_ifs <;> linarith

lemma new_tax_mono {i1 i2 : ℚ} (h : i1 ≤ i2) : new_tax i1 ≤ new_tax i2 := by
  unfold new_tax
  have hm : i1 - 75000 ≤ i2 - 75000 := by linarith
  split_ifs with ha hb
  · exact le_rfl
  · have h1 : (1200000:ℚ) < i2 - 75000 := lt_of_not_le hb
    have hz : (0:ℚ) ≤ (i2 - 75000 - 1200000) * (15/100) :=
      mul_nonneg (by linarith) (by norm_num)
    unfold newSlabChain
    split_ifs <;> linarith
  · linarith
  · exact newSlabChain_mono hm

lemma old_tax_neg_zero {i : ℚ} (h : i < 0) : old_tax i = 0 := by
  unfold old_tax
  rw [max_eq_right (by linarith)]
  norm_num [oldSlabChain]

lemma new_tax_neg_zero {i : ℚ} (h : i < 0) : new_tax i = 0 := by
  unfold new_tax
  rw [if_pos (by linarith)]

/-- C1: for every gross income, `old_tax` and `new_tax` from the code equal
the reference slab-walk algorithm `compute_tax` of the spec at the matching
regime configuration — for `new_tax` despite its unclamped deduction step. -/
theorem C1_slab_walk_equivalence (income : ℚ) :
    old_tax income = compute_tax income oldRegime ∧
    new_tax income = compute_tax income newRegime :=
  ⟨old_tax_eq_compute income, new_tax_eq_compute income⟩

/-- C2 counterexample: at gross income 1,275,001 (taxable 1,200,001) the
function `new_tax` yields 60,000.15 = 1200003/20, not the 120,000.15 =
12000015/100 the claim asserts. -/
theorem C2_cliff_value_counterexample :
    new_tax 1275001 = 1200003/20 ∧ ¬ new_tax 1275001 = 12000015/100 := by
  norm_num [new_tax, newSlabChain]

/-- C2 (amended): old_tax(750,000) = 52,500 and new_tax(1,275,000) = 0 as
claimed, while new_tax(1,275,001) = 20,000 + 40,000 + 1×0.15 = 60,000.15 —
the exact slab-formula value, which the reference algorithm confirms. -/
theorem C2_boundary_examples :
    old_tax 750000 = 52500 ∧ new_tax 1275000 = 0 ∧
    new_tax 1275001 = 1200003/20 ∧ compute_tax 1275001 newRegime = 1200003/20 := by
  refine ⟨?_, ?_, ?_, ?_⟩ <;>
    norm_num [old_tax, oldSlabChain, new_tax, newSlabChain, compute_tax, newRegime,
      slabPortion]

/-- C3: for each fixed regime the tax is monotonically non-decreasing in
gross income, and at the rebate cliff of the new regime the tax is 0 at gross
1,275,000 (taxable exactly the threshold) and strictly positive one unit
above. -/
theorem C3_monotone_and_cliff :
    (∀ i1 i2 : ℚ, i1 < i2 → old_tax i1 ≤ old_tax i2 ∧ new_tax i1 ≤ new_tax i2) ∧
    new_tax 1275000 = 0 ∧ 0 < new_tax 1275001 := by
  refine ⟨fun i1 i2 h => ⟨old_tax_mono h.le, new_tax_mono h.le⟩, ?_, ?_⟩ <;>
    norm_num [new_tax, newSlabChain]

/-- C3 witness: monotonicity applied at the concrete pair 700,000 < 800,000. -/
theorem C3_monotone_and_cliff_witness :
    old_tax 700000 ≤ old_tax 800000 ∧ new_tax 700000 ≤ new_tax 800000 :=
  C3_monotone_and_cliff.1 700000 800000 (by norm_num)

/-- C4: the nominal total is the sum over segments of saving × count with
`saving = old_tax − new_tax` at the representative income and
`count = total_population × fraction`, the average is total / population,
and the total is invariant under reordering the segments. -/
theorem C4_segment_aggregation (tp : ℚ) (segs segs2 : List TaxpayerSegment)
    (h : segs.Perm segs2) :
    total_aggregate_savings tp segs
        = (segs.map (fun s => (old_tax3 s.rep_income - new_tax3 s.rep_income)
            * (tp * s.population_fraction))).sum ∧
    avg_saving tp segs = total_aggregate_savings tp segs / tp ∧
    total_aggregate_savings tp segs = total_aggregate_savings tp segs2 :=
  ⟨rfl, rfl, List.Perm.sum_eq (h.map _)⟩

/-- C4 witness: the spec test fractions [0.5, 0.3, 0.2] with population 100,
reordered, give the same total, whose literal value is 5,300,000; the full
AY 2024-25 table evaluates to ₹1,846,390,000,000. -/
theorem C4_segment_aggregation_witness :
    total_aggregate_savings 100
        ([⟨1/2, 500000⟩, ⟨3/10, 850000⟩, ⟨1/5, 1350000⟩] : List TaxpayerSegment)
      = total_aggregate_savings 100
        ([⟨1/5, 1350000⟩, ⟨3/10, 850000⟩, ⟨1/2, 500000⟩] : List TaxpayerSegment) ∧
    total_aggregate_savings 100
        ([⟨1/2, 500000⟩, ⟨3/10, 850000⟩, ⟨1/5, 1350000⟩] : List TaxpayerSegment)
      = 5300000 ∧
    total_aggregate_savings_AY2425 = 1846390000000 := by
  refine ⟨(C4_segment_aggregation 100 _ _ (List.reverse_perm _).symm).2.2, ?_, ?_⟩ <;>
    norm_num [total_aggregate_savings_AY2425, total_aggregate_savings,
      aggregate_savings_slab, taxpayer_distribution, total_taxpayers_AY2425,
      segment_saving, segment_count, old_tax3, oldSlabChain3, new_tax3, newSlabChain3]

/-- C5 counterexample: at gross income −1 both tax functions silently return
the numeric value 0 — a zero-tax outcome, with no InvalidIncomeError raised
anywhere in the code. -/
theorem C5_negative_income_counterexample :
    old_tax (-1) = 0 ∧ new_tax (-1) = 0 := by
  norm_num [old_tax, oldSlabChain, new_tax, newSlabChain]

/-- C5 (amended): every negative gross income is silently mapped to a
zero-tax numeric result by both regimes — `old_tax` via the deduction
max-clamp, `new_tax` via the rebate branch; no validation exists. -/
theorem C5_negative_income_clamped (i : ℚ) (h : i < 0) :
    old_tax i = 0 ∧ new_tax i = 0 :=
  ⟨old_tax_neg_zero h, new_tax_neg_zero h⟩

/-- C5 witness: the amended statement applied at income −5. -/
theorem C5_negative_income_clamped_witness :
    old_tax (-5) = 0 ∧ new_tax (-5) = 0 :=
  C5_negative_income_clamped (-5) (by norm_num)

/-- C6: the real saving is the nominal saving divided by (1 + r) for every
rate above −1, at r = 0 it equals the nominal saving exactly, and the
concrete AY 2024-25 real total is this adjustment applied at 5.22%. -/
theorem C6_inflation_adjustment :
    (∀ nominal r : ℚ, -1 < r → real_savings nominal r = nominal / (1 + r)) ∧
    (∀ nominal : ℚ, real_savings nominal 0 = nominal) ∧
    real_total_savings_AY2425 = real_savings total_aggregate_savings_AY2425 inflation_rate :=
  ⟨fun _ _ _ => rfl, fun nominal => by norm_num [real_savings], rfl⟩

/-- C6 witness: the adjustment at nominal 1000 with rate 5.22% and rate 0. -/
theorem C6_inflation_adjustment_witness :
    real_savings 1000 (522/10000) = 1000 / (1 + 522/10000) ∧
    real_savings 1000 0 = 1000 :=
  ⟨C6_inflation_adjustment.1 1000 (522/10000) (by norm_num),
   C6_inflation_adjustment.2.1 1000⟩

/-- C7 counterexample: at baseline GDP −1 (≤ 0) and at multiplier −1 the
projection returns ordinary numeric results instead of failing with a
DomainError. -/
theorem C7_projection_counterexample :
    project 100 (1/2) (-1) = (50, -5000) ∧ project 100 (-1) 100 = (-100, -100) := by
  constructor <;> norm_num [project, Prod.ext_iff]

/-- C7 (amended): the projection formulas `increase = real × multiplier` and
`pct = increase / gdp × 100` hold for all inputs; the code performs no
domain validation, and the concrete pipeline values instantiate them. -/
theorem C7_projection_formula :
    (∀ r m g : ℚ, project r m g = (r * m, r * m / g * 100)) ∧
    project real_total_savings_AY2425 value_addition_multiplier current_gdp
      = (gdp_increase_nominal, gdp_increase_percentage) :=
  ⟨fun _ _ _ => rfl, rfl⟩

/-- C8 counterexample: on the empty sample the mean expression still
evaluates to a value (numpy produces the 0/0 indeterminate NaN with only a
warning; the rational embedding of the same division yields 0) — no
EmptyInputError is raised. -/
theorem C8_empty_sample_counterexample : avg_saving_sample [] = 0 := by
  norm_num [avg_saving_sample, tax_savings]

/-- C8 (amended): for every non-empty sample the average saving is the
arithmetic mean of the per-income old−new savings; empty input is not
validated. -/
theorem C8_sample_mean (incomes : List ℚ) (h : incomes ≠ []) :
    avg_saving_sample incomes
        = (incomes.map (fun i => old_tax i - new_tax i)).sum / incomes.length ∧
    avg_saving_sample incomes * incomes.length
        = (incomes.map (fun i => old_tax i - new_tax i)).sum := by
  have hl0 : incomes.length ≠ 0 := fun hc => h (List.length_eq_zero.mp hc)
  have hl : (incomes.length : ℚ) ≠ 0 := Nat.cast_ne_zero.mpr hl0
  unfold avg_saving_sample tax_savings
  rw [List.length_map]
  exact ⟨rfl, by field_simp⟩

/-- C8 witness: the mean over the two-income sample [750,000, 1,275,001],
whose savings are 52,500 and 120,000.15, averages to 86,250.075. -/
theorem C8_sample_mean_witness :
    avg_saving_sample [750000, 1275001]
        = (([750000, 1275001] : List ℚ).map (fun i => old_tax i - new_tax i)).sum
            / (([750000, 1275001] : List ℚ).length : ℚ) ∧
    avg_saving_sample [750000, 1275001] = 3450003/40 := by
  refine ⟨(C8_sample_mean [750000, 1275001] (List.cons_ne_nil _ _)).1, ?_⟩
  norm_num [avg_saving_sample, tax_savings, old_tax, oldSlabChain, new_tax, newSlabChain]

/-- C9: both configured slab tables are contiguous with exactly the last
slab unbounded, their marginal rates are non-decreasing, the rate sequences
are the listed ones, and both tables start at lower bound 0. -/
theorem C9_slab_invariants :
    slabsChainOk oldRegime.slabs = true ∧
    ratesNonDecreasing oldRegime.slabs = true ∧
    oldRegime.slabs.map Slab.rate = [0, 5/100, 20/100, 30/100] ∧
    slabsChainOk newRegime.slabs = true ∧
    ratesNonDecreasing newRegime.slabs = true ∧
    newRegime.slabs.map Slab.rate
      = [0, 5/100, 10/100, 15/100, 20/100, 25/100, 30/100] ∧
    (oldRegime.slabs.map Slab.lo).head? = some 0 ∧
    (newRegime.slabs.map Slab.lo).head? = some 0 := by
  refine ⟨by decide, ?_, by simp [oldRegime], by decide, ?_, by simp [newRegime],
    by simp [oldRegime], by simp [newRegime]⟩
  · simp only [ratesNonDecreasing, oldRegime, Bool.and_eq_true, decide_eq_true_eq]
    norm_num
  · simp only [ratesNonDecreasing, newRegime, Bool.and_eq_true, decide_eq_true_eq]
    norm_num

/-- C10: the tax functions of the three files are extensionally equal, in
particular the tax2.py branch `(taxable - 1200000 - 400000) * 0.20` agrees
with the `(taxable - 1600000) * 0.20` form of the other two files. -/
theorem C10_three_files_agree (income : ℚ) :
    (old_tax income = old_tax2 income ∧ old_tax income = old_tax3 income) ∧
    (new_tax income = new_tax2 income ∧ new_tax income = new_tax3 income) := by
  refine ⟨⟨rfl, rfl⟩, ?_, rfl⟩
  unfold new_tax new_tax2 newSlabChain newSlabChain2
  split_ifs <;> ring

end TaxIndia
